import Mathlib

/-!
Shallow embedding of the `DeleteSpace` validation workflow from the
`code-semantics` examples: the dependency-injected variant
(test-doubles/example/delete_space.go) and the self-contained variant
(tests/example/delete_space.go), together with theorems settling the
specification claims about them.

Conventions of the embedding:
- Go's `error` interface value is modelled by `GoError`; the five package
  sentinels created with errors.New are the five dedicated constructors,
  and `errOther` stands for any other error value a Store implementation
  may produce.  A Go function returning `error` returns `Option GoError`
  (`none` is Go's `nil`, i.e. success).
- `FetchSpaceWithID` returning `*Space` is modelled as `Option Space`
  (`none` is Go's `nil` pointer).
- The `resource` struct has no fields, so `resources []resource` becomes
  `List Unit`.
- `DeleteSpaceCalls` records, with the same guard structure as
  `DeleteSpace`, the sequence of Store operations a call performs, so
  that claims about invocation counts can be stated.
- For the claim about statelessness, `StoreM` is a Store whose two
  operations also thread an explicit state, and `DeleteSpaceM` is the
  same guard chain with that state passed along.
-/

/-- Model of Go `error` values used by this package: the five sentinel
errors declared with errors.New, plus arbitrary other error values a
Store implementation may return. -/
inductive GoError where
  | errCannotFetchSpace : GoError
  | errNotAnOwnedSpace : GoError
  | errNonEmptySpace : GoError
  | errUnremovableDefaultSpace : GoError
  | errSpaceCouldNotBeRemoved : GoError
  | errOther : String → GoError
deriving DecidableEq

/-- Mirrors `const defaultSpaceName = "default"`. -/
def defaultSpaceName : String := "default"

/-- Mirrors the `Space` struct; `resources []resource` becomes `List Unit`
because `resource` is an empty struct. -/
structure Space where
  id : String
  ownerID : String
  name : String
  resources : List Unit
deriving DecidableEq

/-- Mirrors `func (s Space) isOwnedBy(userID string) bool`. -/
def Space.isOwnedBy (s : Space) (userID : String) : Bool :=
  s.ownerID == userID

/-- Mirrors `func (s Space) isEmpty() bool`. -/
def Space.isEmpty (s : Space) : Bool :=
  s.resources.length == 0

/-- Mirrors `func (s Space) isTheDefault() bool`. -/
def Space.isTheDefault (s : Space) : Bool :=
  s.name == defaultSpaceName

namespace TestDoubles

/-- Mirrors the `Store` interface of test-doubles/example/delete_space.go:
a fetch capability and a remove capability. -/
structure Store where
  FetchSpaceWithID : String → Option Space
  RemoveSpaceWithID : String → Option GoError

/-- Mirrors `func DeleteSpace(store Store, id string, whoAmI string) error`
of test-doubles/example/delete_space.go. -/
def DeleteSpace (store : Store) (id whoAmI : String) : Option GoError :=
  match store.FetchSpaceWithID id with
  | none => some GoError.errCannotFetchSpace
  | some space =>
    if !space.isOwnedBy whoAmI then some GoError.errNotAnOwnedSpace
    else if !space.isEmpty then some GoError.errNonEmptySpace
    else if space.isTheDefault then some GoError.errUnremovableDefaultSpace
    else store.RemoveSpaceWithID id

/-- A Store operation, for recording which capabilities a call invokes. -/
inductive StoreOp where
  | fetch : String → StoreOp
  | remove : String → StoreOp
deriving DecidableEq

/-- The sequence of Store operations a `DeleteSpace` call performs,
following the guard structure of the source: the fetch always happens
first, and the remove happens exactly on the branch that reaches
`return store.RemoveSpaceWithID(id)`. -/
def DeleteSpaceCalls (store : Store) (id whoAmI : String) : List StoreOp :=
  match store.FetchSpaceWithID id with
  | none => [StoreOp.fetch id]
  | some space =>
    if !space.isOwnedBy whoAmI then [StoreOp.fetch id]
    else if !space.isEmpty then [StoreOp.fetch id]
    else if space.isTheDefault then [StoreOp.fetch id]
    else [StoreOp.fetch id, StoreOp.remove id]

end TestDoubles

namespace Tests

/-- Mirrors `func fetchSpaceWithID(id string) *Space` of
tests/example/delete_space.go: a hard-wired fetch that starts from a
known owned, empty, non-default space and tweaks it per the switch. -/
def fetchSpaceWithID (id : String) : Option Space :=
  let space : Space :=
    { id := "known-space"
      ownerID := "known-owner"
      name := "a space name"
      resources := [] }
  match id with
  | "unknown-space" => none
  | "non-empty-space" => some { space with resources := [()] }
  | "default-space" => some { space with name := defaultSpaceName }
  | _ => some space

/-- Mirrors `func removeSpaceWithID(id string) error` of
tests/example/delete_space.go. -/
def removeSpaceWithID (id : String) : Option GoError :=
  if id == "fails-on-remove" then some GoError.errSpaceCouldNotBeRemoved
  else none

/-- Mirrors `func DeleteSpace(id string, whoAmI string) error` of
tests/example/delete_space.go: the self-contained variant with
hard-wired data access. -/
def DeleteSpace (id whoAmI : String) : Option GoError :=
  match fetchSpaceWithID id with
  | none => some GoError.errCannotFetchSpace
  | some space =>
    if !space.isOwnedBy whoAmI then some GoError.errNotAnOwnedSpace
    else if !space.isEmpty then some GoError.errNonEmptySpace
    else if space.isTheDefault then some GoError.errUnremovableDefaultSpace
    else removeSpaceWithID id

end Tests

namespace TestDoubles

/-- The injected Store whose capabilities are the hard-wired functions of
the self-contained variant. -/
def testsStore : Store :=
  { FetchSpaceWithID := Tests.fetchSpaceWithID
    RemoveSpaceWithID := Tests.removeSpaceWithID }

/-- Fixture: a store whose fetch finds nothing. -/
def absentStore : Store :=
  { FetchSpaceWithID := fun _ => none
    RemoveSpaceWithID := fun _ => none }

/-- Fixture: an owned, empty, non-default space. -/
def ownedEmptySpace : Space :=
  { id := "s1", ownerID := "alice", name := "a space name", resources := [] }

/-- Fixture: a store holding `ownedEmptySpace` under every key, whose
remove succeeds. -/
def okStore : Store :=
  { FetchSpaceWithID := fun _ => some ownedEmptySpace
    RemoveSpaceWithID := fun _ => none }

/-- Fixture: like `okStore` but the remove capability reports a failure. -/
def failRemoveStore : Store :=
  { FetchSpaceWithID := fun _ => some ownedEmptySpace
    RemoveSpaceWithID := fun _ => some (GoError.errOther "boom") }

/-- Fixture: a space whose internal id field differs from the key it is
fetched by. -/
def mismatchSpace : Space :=
  { id := "space-internal-id", ownerID := "alice", name := "a space name", resources := [] }

/-- Fixture: a store returning `mismatchSpace` for every lookup key, whose
remove succeeds. -/
def mismatchStore : Store :=
  { FetchSpaceWithID := fun _ => some mismatchSpace
    RemoveSpaceWithID := fun _ => none }

/-- Fixture: the owner's default space, empty and owned. -/
def defaultSpace : Space :=
  { id := "s1", ownerID := "alice", name := "default", resources := [] }

/-- Fixture: a store holding `defaultSpace`. -/
def defaultStore : Store :=
  { FetchSpaceWithID := fun _ => some defaultSpace
    RemoveSpaceWithID := fun _ => none }

/-- Fixture: a store holding a valid space whose remove capability fails
with the same error value the fetch-absence guard uses. -/
def adversarialStore : Store :=
  { FetchSpaceWithID := fun _ => some ownedEmptySpace
    RemoveSpaceWithID := fun _ => some GoError.errCannotFetchSpace }

end TestDoubles

namespace TestDoubles

/-- C1: DeleteSpace evaluates its guards in the fixed order fetch-absence,
ownership, emptiness, default-name, short-circuiting on the first
failure; in particular a space both not owned and non-empty yields the
ownership error, and every call produces one of the five error outcomes
or success. -/
theorem deleteSpace_guard_chain (store : Store) (id u : String) :
    (store.FetchSpaceWithID id = none →
      DeleteSpace store id u = some GoError.errCannotFetchSpace)
    ∧ (∀ s, store.FetchSpaceWithID id = some s → s.isOwnedBy u = false →
      DeleteSpace store id u = some GoError.errNotAnOwnedSpace)
    ∧ (∀ s, store.FetchSpaceWithID id = some s → s.isOwnedBy u = true →
      s.isEmpty = false →
      DeleteSpace store id u = some GoError.errNonEmptySpace)
    ∧ (∀ s, store.FetchSpaceWithID id = some s → s.isOwnedBy u = true →
      s.isEmpty = true → s.isTheDefault = true →
      DeleteSpace store id u = some GoError.errUnremovableDefaultSpace)
    ∧ (∀ s, store.FetchSpaceWithID id = some s → s.isOwnedBy u = true →
      s.isEmpty = true → s.isTheDefault = false →
      DeleteSpace store id u = store.RemoveSpaceWithID id)
    ∧ (∀ s, store.FetchSpaceWithID id = some s → s.isOwnedBy u = false →
      s.isEmpty = false →
      DeleteSpace store id u = some GoError.errNotAnOwnedSpace)
    ∧ (DeleteSpace store id u = none
      ∨ DeleteSpace store id u = some GoError.errCannotFetchSpace
      ∨ DeleteSpace store id u = some GoError.errNotAnOwnedSpace
      ∨ DeleteSpace store id u = some GoError.errNonEmptySpace
      ∨ DeleteSpace store id u = some GoError.errUnremovableDefaultSpace
      ∨ DeleteSpace store id u = store.RemoveSpaceWithID id) := by
  refine ⟨?_, ?_, ?_, ?_, ?_, ?_, ?_⟩
  · intro h; simp [DeleteSpace, h]
  · intro s hs hb; simp [DeleteSpace, hs, hb]
  · intro s hs hb he; simp [DeleteSpace, hs, hb, he]
  · intro s hs hb he hd; simp [DeleteSpace, hs, hb, he, hd]
  · intro s hs hb he hd; simp [DeleteSpace, hs, hb, he, hd]
  · intro s hs hb _; simp [DeleteSpace, hs, hb]
  · cases hs : store.FetchSpaceWithID id with
    | none => exact Or.inr (Or.inl (by simp [DeleteSpace, hs]))
    | some s =>
      cases hb : s.isOwnedBy u with
      | false => exact Or.inr (Or.inr (Or.inl (by simp [DeleteSpace, hs, hb])))
      | true =>
        cases he : s.isEmpty with
        | false =>
          exact Or.inr (Or.inr (Or.inr (Or.inl (by simp [DeleteSpace, hs, hb, he]))))
        | true =>
          cases hd : s.isTheDefault with
          | true =>
            exact Or.inr (Or.inr (Or.inr (Or.inr (Or.inl
              (by simp [DeleteSpace, hs, hb, he, hd])))))
          | false =>
            exact Or.inr (Or.inr (Or.inr (Or.inr (Or.inr
              (by simp [DeleteSpace, hs, hb, he, hd])))))

/-- Witness for C1: the guard chain applied to concrete stores, one per
branch of the characterization. -/
theorem deleteSpace_guard_chain_instance :
    DeleteSpace absentStore "x" "alice" = some GoError.errCannotFetchSpace
    ∧ DeleteSpace okStore "x" "bob" = some GoError.errNotAnOwnedSpace
    ∧ DeleteSpace okStore "x" "alice" = okStore.RemoveSpaceWithID "x"
    ∧ DeleteSpace defaultStore "x" "alice"
        = some GoError.errUnremovableDefaultSpace :=
  ⟨(deleteSpace_guard_chain absentStore "x" "alice").1 rfl,
   (deleteSpace_guard_chain okStore "x" "bob").2.1 ownedEmptySpace rfl (by decide),
   (deleteSpace_guard_chain okStore "x" "alice").2.2.2.2.1 ownedEmptySpace rfl
     (by decide) (by decide) (by decide),
   (deleteSpace_guard_chain defaultStore "x" "alice").2.2.2.1 defaultSpace rfl
     (by decide) (by decide) (by decide)⟩

end TestDoubles

namespace TestDoubles

/-- C5: a fetched space named "default" is never removed and the call
never succeeds; when it is owned by the acting user and empty, the call
fails with the unremovable-default error. -/
theorem deleteSpace_protects_default (store : Store) (id u : String)
    (s : Space) (hs : store.FetchSpaceWithID id = some s)
    (hd : s.isTheDefault = true) :
    DeleteSpace store id u ≠ none
    ∧ DeleteSpaceCalls store id u = [StoreOp.fetch id]
    ∧ (s.isOwnedBy u = true → s.isEmpty = true →
      DeleteSpace store id u = some GoError.errUnremovableDefaultSpace) := by
  refine ⟨?_, ?_, ?_⟩
  · cases hb : s.isOwnedBy u with
    | false => simp [DeleteSpace, hs, hb]
    | true =>
      cases he : s.isEmpty with
      | false => simp [DeleteSpace, hs, hb, he]
      | true => simp [DeleteSpace, hs, hb, he, hd]
  · cases hb : s.isOwnedBy u with
    | false => simp [DeleteSpaceCalls, hs, hb]
    | true =>
      cases he : s.isEmpty with
      | false => simp [DeleteSpaceCalls, hs, hb, he]
      | true => simp [DeleteSpaceCalls, hs, hb, he, hd]
  · intro hb he; simp [DeleteSpace, hs, hb, he, hd]

/-- Witness for C5: the default-space store never reaches the remove and
fails with the unremovable-default error. -/
theorem deleteSpace_protects_default_instance :
    DeleteSpace defaultStore "x" "alice" ≠ none
    ∧ DeleteSpaceCalls defaultStore "x" "alice" = [StoreOp.fetch "x"]
    ∧ DeleteSpace defaultStore "x" "alice"
        = some GoError.errUnremovableDefaultSpace := by
  have h := deleteSpace_protects_default defaultStore "x" "alice" defaultSpace
    rfl (by decide)
  exact ⟨h.1, h.2.1, h.2.2 (by decide) (by decide)⟩

/-- C6: when the fetch signals absence, DeleteSpace fails with the
cannot-fetch error and the remove capability is never invoked. -/
theorem deleteSpace_absent_fetch (store : Store) (id u : String)
    (h : store.FetchSpaceWithID id = none) :
    DeleteSpace store id u = some GoError.errCannotFetchSpace
    ∧ DeleteSpaceCalls store id u = [StoreOp.fetch id] := by
  constructor
  · simp [DeleteSpace, h]
  · simp [DeleteSpaceCalls, h]

/-- Witness for C6: the absent store at a concrete key. -/
theorem deleteSpace_absent_fetch_instance :
    DeleteSpace absentStore "missing" "alice" = some GoError.errCannotFetchSpace
    ∧ DeleteSpaceCalls absentStore "missing" "alice"
        = [StoreOp.fetch "missing"] :=
  deleteSpace_absent_fetch absentStore "missing" "alice" rfl

/-- C7: when all four preconditions pass and the store's remove reports
an error, DeleteSpace returns exactly that error, so the original cause
is recoverable from the returned error. -/
theorem deleteSpace_propagates_remove_error (store : Store) (id u : String)
    (s : Space) (e : GoError) (hs : store.FetchSpaceWithID id = some s)
    (hb : s.isOwnedBy u = true) (he : s.isEmpty = true)
    (hd : s.isTheDefault = false)
    (hr : store.RemoveSpaceWithID id = some e) :
    DeleteSpace store id u = some e := by
  simp [DeleteSpace, hs, hb, he, hd, hr]

/-- Witness for C7: the hard-wired capabilities of the tests variant,
where removing "fails-on-remove" reports the could-not-be-removed
sentinel, and a store whose remove reports an arbitrary cause. -/
theorem deleteSpace_propagates_remove_error_instance :
    DeleteSpace testsStore "fails-on-remove" "known-owner"
        = some GoError.errSpaceCouldNotBeRemoved
    ∧ DeleteSpace failRemoveStore "x" "alice" = some (GoError.errOther "boom") :=
  ⟨deleteSpace_propagates_remove_error testsStore "fails-on-remove" "known-owner"
      { id := "known-space", ownerID := "known-owner", name := "a space name",
        resources := [] }
      GoError.errSpaceCouldNotBeRemoved rfl (by decide) (by decide) (by decide) rfl,
   deleteSpace_propagates_remove_error failRemoveStore "x" "alice"
      ownedEmptySpace (GoError.errOther "boom") rfl (by decide) (by decide)
      (by decide) rfl⟩

/-- C9: the self-contained DeleteSpace of the tests variant equals the
dependency-injected DeleteSpace applied to the store whose capabilities
are the hard-wired fetchSpaceWithID and removeSpaceWithID. -/
theorem deleteSpace_self_contained_equiv (id u : String) :
    Tests.DeleteSpace id u = DeleteSpace testsStore id u := rfl

/-- C10: when all four preconditions pass, the remove capability receives
the caller-supplied lookup id, not the fetched space's id field, and the
returned value is the store's remove result unmodified. -/
theorem deleteSpace_removes_by_lookup_id (store : Store) (id u : String)
    (s : Space) (hs : store.FetchSpaceWithID id = some s)
    (hneq : s.id ≠ id) (hb : s.isOwnedBy u = true) (he : s.isEmpty = true)
    (hd : s.isTheDefault = false) :
    DeleteSpaceCalls store id u = [StoreOp.fetch id, StoreOp.remove id]
    ∧ StoreOp.remove s.id ∉ DeleteSpaceCalls store id u
    ∧ DeleteSpace store id u = store.RemoveSpaceWithID id := by
  have hcalls : DeleteSpaceCalls store id u
      = [StoreOp.fetch id, StoreOp.remove id] := by
    simp [DeleteSpaceCalls, hs, hb, he, hd]
  refine ⟨hcalls, ?_, ?_⟩
  · rw [hcalls]
    intro hmem
    rcases List.mem_pair.mp hmem with h | h
    · exact StoreOp.noConfusion h
    · exact hneq (by injection h)
  · simp [DeleteSpace, hs, hb, he, hd]

/-- Witness for C10: the mismatch store fetches a space whose id field is
"space-internal-id" under the lookup key "lookup-id"; the remove is
invoked with the lookup key only. -/
theorem deleteSpace_removes_by_lookup_id_instance :
    DeleteSpaceCalls mismatchStore "lookup-id" "alice"
        = [StoreOp.fetch "lookup-id", StoreOp.remove "lookup-id"]
    ∧ StoreOp.remove mismatchSpace.id
        ∉ DeleteSpaceCalls mismatchStore "lookup-id" "alice"
    ∧ DeleteSpace mismatchStore "lookup-id" "alice"
        = mismatchStore.RemoveSpaceWithID "lookup-id" :=
  deleteSpace_removes_by_lookup_id mismatchStore "lookup-id" "alice"
    mismatchSpace rfl (by decide) (by decide) (by decide) (by decide)

end TestDoubles

namespace TestDoubles

/-- Counterexample for C2: under the lookup key "lookup-id" the mismatch
store returns a space that satisfies all preconditions but whose id field
is "space-internal-id"; the remove capability is invoked with the lookup
key, and never with the space's id field, so the claim that removeById is
invoked with argument s.id fails. -/
theorem deleteSpace_counterexample_remove_arg :
    mismatchStore.FetchSpaceWithID "lookup-id" = some mismatchSpace
    ∧ mismatchSpace.isOwnedBy "alice" = true
    ∧ mismatchSpace.isEmpty = true
    ∧ mismatchSpace.isTheDefault = false
    ∧ mismatchSpace.id ≠ "lookup-id"
    ∧ DeleteSpaceCalls mismatchStore "lookup-id" "alice"
        = [StoreOp.fetch "lookup-id", StoreOp.remove "lookup-id"]
    ∧ StoreOp.remove mismatchSpace.id
        ∉ DeleteSpaceCalls mismatchStore "lookup-id" "alice" := by
  refine ⟨rfl, by decide, by decide, by decide, by decide, ?_, ?_⟩
  · simp [DeleteSpaceCalls, mismatchStore, mismatchSpace, Space.isOwnedBy,
      Space.isEmpty, Space.isTheDefault, defaultSpaceName]
  · simp [DeleteSpaceCalls, mismatchStore, mismatchSpace, Space.isOwnedBy,
      Space.isEmpty, Space.isTheDefault, defaultSpaceName]

/-- C2 (amended): for every space fetched under the lookup key that is
owned by the acting user, empty, and not named "default", DeleteSpace
invokes the remove capability exactly once, with the lookup key as its
argument, and succeeds when the store's remove succeeds. -/
theorem deleteSpace_success_removes_once (store : Store) (id u : String)
    (s : Space) (hs : store.FetchSpaceWithID id = some s)
    (hb : s.isOwnedBy u = true) (he : s.isEmpty = true)
    (hd : s.isTheDefault = false) :
    DeleteSpaceCalls store id u = [StoreOp.fetch id, StoreOp.remove id]
    ∧ (store.RemoveSpaceWithID id = none → DeleteSpace store id u = none) := by
  constructor
  · simp [DeleteSpaceCalls, hs, hb, he, hd]
  · intro hr; simp [DeleteSpace, hs, hb, he, hd, hr]

/-- Witness for C2 (amended): the ok store removes exactly once, with the
lookup key, and succeeds. -/
theorem deleteSpace_success_removes_once_instance :
    DeleteSpaceCalls okStore "x" "alice" = [StoreOp.fetch "x", StoreOp.remove "x"]
    ∧ DeleteSpace okStore "x" "alice" = none := by
  have h := deleteSpace_success_removes_once okStore "x" "alice" ownedEmptySpace
    rfl (by decide) (by decide) (by decide)
  exact ⟨h.1, h.2 rfl⟩

/-- Counterexample for C3: when the store's remove capability reports a
failure for an otherwise valid space, DeleteSpace returns an error and
yet the remove capability has been invoked, contradicting the claim that
no call returning an error invokes the write. -/
theorem deleteSpace_counterexample_write_on_error :
    DeleteSpace failRemoveStore "x" "alice" = some (GoError.errOther "boom")
    ∧ StoreOp.remove "x" ∈ DeleteSpaceCalls failRemoveStore "x" "alice" := by
  constructor
  · simp [DeleteSpace, failRemoveStore, ownedEmptySpace, Space.isOwnedBy,
      Space.isEmpty, Space.isTheDefault, defaultSpaceName]
  · simp [DeleteSpaceCalls, failRemoveStore, ownedEmptySpace, Space.isOwnedBy,
      Space.isEmpty, Space.isTheDefault, defaultSpaceName]

/-- C3 (amended): every call performs exactly one read; the write is
invoked exactly when all four preconditions pass, that is on success and
on removal-failure, and then exactly once, after the read; calls failing
a precondition never invoke the write; no other store operation is ever
invoked. -/
theorem deleteSpace_read_write_discipline (store : Store) (id u : String) :
    (DeleteSpaceCalls store id u = [StoreOp.fetch id]
      ∨ DeleteSpaceCalls store id u = [StoreOp.fetch id, StoreOp.remove id])
    ∧ (DeleteSpaceCalls store id u = [StoreOp.fetch id, StoreOp.remove id]
      ↔ ∃ s, store.FetchSpaceWithID id = some s ∧ s.isOwnedBy u = true
          ∧ s.isEmpty = true ∧ s.isTheDefault = false) := by
  constructor
  · cases hs : store.FetchSpaceWithID id with
    | none => exact Or.inl (by simp [DeleteSpaceCalls, hs])
    | some s =>
      cases hb : s.isOwnedBy u with
      | false => exact Or.inl (by simp [DeleteSpaceCalls, hs, hb])
      | true =>
        cases he : s.isEmpty with
        | false => exact Or.inl (by simp [DeleteSpaceCalls, hs, hb, he])
        | true =>
          cases hd : s.isTheDefault with
          | true => exact Or.inl (by simp [DeleteSpaceCalls, hs, hb, he, hd])
          | false => exact Or.inr (by simp [DeleteSpaceCalls, hs, hb, he, hd])
  · constructor
    · intro hcalls
      cases hs : store.FetchSpaceWithID id with
      | none => simp [DeleteSpaceCalls, hs] at hcalls
      | some s =>
        refine ⟨s, rfl, ?_⟩
        cases hb : s.isOwnedBy u with
        | false => simp [DeleteSpaceCalls, hs, hb] at hcalls
        | true =>
          cases he : s.isEmpty with
          | false => simp [DeleteSpaceCalls, hs, hb, he] at hcalls
          | true =>
            cases hd : s.isTheDefault with
            | true => simp [DeleteSpaceCalls, hs, hb, he, hd] at hcalls
            | false => exact ⟨rfl, rfl, rfl⟩
    · rintro ⟨s, hs, hb, he, hd⟩
      simp [DeleteSpaceCalls, hs, hb, he, hd]

/-- Witness for C3 (amended): the ok store performs the read then the
write, and the write happens exactly because the fetched space passes
all four preconditions. -/
theorem deleteSpace_read_write_discipline_instance :
    (DeleteSpaceCalls okStore "x" "alice" = [StoreOp.fetch "x"]
      ∨ DeleteSpaceCalls okStore "x" "alice"
          = [StoreOp.fetch "x", StoreOp.remove "x"])
    ∧ DeleteSpaceCalls okStore "x" "alice"
        = [StoreOp.fetch "x", StoreOp.remove "x"] := by
  have h := deleteSpace_read_write_discipline okStore "x" "alice"
  exact ⟨h.1, h.2.mpr ⟨ownedEmptySpace, rfl, by decide, by decide, by decide⟩⟩

/-- Counterexample for C4: a store in the same package may return the
fetch-absence sentinel from its remove capability; for such a store the
error produced on the removal-failure path is the very error produced on
fetch-absence, so the removal-failure outcome is not distinct from every
precondition error for every Store. -/
theorem deleteSpace_counterexample_error_overlap :
    adversarialStore.FetchSpaceWithID "x" = some ownedEmptySpace
    ∧ ownedEmptySpace.isOwnedBy "alice" = true
    ∧ ownedEmptySpace.isEmpty = true
    ∧ ownedEmptySpace.isTheDefault = false
    ∧ adversarialStore.RemoveSpaceWithID "x" = some GoError.errCannotFetchSpace
    ∧ DeleteSpace adversarialStore "x" "alice"
        = some GoError.errCannotFetchSpace := by
  refine ⟨rfl, by decide, by decide, by decide, rfl, ?_⟩
  simp [DeleteSpace, adversarialStore, ownedEmptySpace, Space.isOwnedBy,
    Space.isEmpty, Space.isTheDefault, defaultSpaceName]

/-- C4 (amended): the five sentinel errors are pairwise distinct values —
in particular fetch-absence and ownership-mismatch never share an error
value — and in the self-contained variant the remove operation only ever
reports the could-not-be-removed sentinel, which is distinct from all
four precondition errors; in the injected variant the removal-failure
result is the store's own error value, unmodified. -/
theorem deleteSpace_error_taxonomy :
    (GoError.errCannotFetchSpace ≠ GoError.errNotAnOwnedSpace
      ∧ GoError.errCannotFetchSpace ≠ GoError.errNonEmptySpace
      ∧ GoError.errCannotFetchSpace ≠ GoError.errUnremovableDefaultSpace
      ∧ GoError.errCannotFetchSpace ≠ GoError.errSpaceCouldNotBeRemoved
      ∧ GoError.errNotAnOwnedSpace ≠ GoError.errNonEmptySpace
      ∧ GoError.errNotAnOwnedSpace ≠ GoError.errUnremovableDefaultSpace
      ∧ GoError.errNotAnOwnedSpace ≠ GoError.errSpaceCouldNotBeRemoved
      ∧ GoError.errNonEmptySpace ≠ GoError.errUnremovableDefaultSpace
      ∧ GoError.errNonEmptySpace ≠ GoError.errSpaceCouldNotBeRemoved
      ∧ GoError.errUnremovableDefaultSpace ≠ GoError.errSpaceCouldNotBeRemoved)
    ∧ (∀ id : String, Tests.removeSpaceWithID id = none
      ∨ Tests.removeSpaceWithID id = some GoError.errSpaceCouldNotBeRemoved) := by
  constructor
  · exact ⟨by decide, by decide, by decide, by decide, by decide, by decide,
      by decide, by decide, by decide, by decide⟩
  · intro id
    unfold Tests.removeSpaceWithID
    cases h : id == "fails-on-remove" with
    | true => simp [h]
    | false => simp [h]

/-- Witness for C4 (amended): the taxonomy at concrete points — the two
sentinels the spec singles out are distinct, and the hard-wired remove
reports only the could-not-be-removed sentinel at a failing key. -/
theorem deleteSpace_error_taxonomy_instance :
    GoError.errCannotFetchSpace ≠ GoError.errNotAnOwnedSpace
    ∧ (Tests.removeSpaceWithID "fails-on-remove" = none
      ∨ Tests.removeSpaceWithID "fails-on-remove"
          = some GoError.errSpaceCouldNotBeRemoved) :=
  ⟨deleteSpace_error_taxonomy.1.1, deleteSpace_error_taxonomy.2 "fails-on-remove"⟩

end TestDoubles

namespace TestDoubles

/-- A Store whose two capabilities may mutate internal state, modelled by
explicit state passing: each operation returns its result together with
the successor state, the way a Go implementation may mutate its
receiver between calls. -/
structure StoreM (σ : Type) where
  FetchSpaceWithID : σ → String → Option Space × σ
  RemoveSpaceWithID : σ → String → Option GoError × σ

/-- The DeleteSpace guard chain over a state-threading store: the fetch
runs first on the incoming state, each guard returns the state left by
the fetch, and the remove runs on that state on the final branch. -/
def DeleteSpaceM {σ : Type} (store : StoreM σ) (st : σ) (id whoAmI : String) :
    Option GoError × σ :=
  let fr := store.FetchSpaceWithID st id
  match fr.1 with
  | none => (some GoError.errCannotFetchSpace, fr.2)
  | some space =>
    if !space.isOwnedBy whoAmI then (some GoError.errNotAnOwnedSpace, fr.2)
    else if !space.isEmpty then (some GoError.errNonEmptySpace, fr.2)
    else if space.isTheDefault then (some GoError.errUnremovableDefaultSpace, fr.2)
    else store.RemoveSpaceWithID fr.2 id

/-- A store is pure when neither capability mutates the state: repeated
invocations observe the same store. -/
def StoreM.IsPure {σ : Type} (store : StoreM σ) : Prop :=
  (∀ st id, (store.FetchSpaceWithID st id).2 = st)
  ∧ (∀ st id, (store.RemoveSpaceWithID st id).2 = st)

/-- C8: against a store that does not mutate state between calls, a
DeleteSpaceM call leaves the state unchanged, and a second call with the
same id and acting user yields the identical result; the guard chain
itself keeps no state across calls. -/
theorem deleteSpaceM_idempotent {σ : Type} (store : StoreM σ) (st : σ)
    (id u : String) (hp : store.IsPure) :
    (DeleteSpaceM store st id u).2 = st
    ∧ DeleteSpaceM store (DeleteSpaceM store st id u).2 id u
        = DeleteSpaceM store st id u := by
  obtain ⟨hf, hr⟩ := hp
  have h2 : (DeleteSpaceM store st id u).2 = st := by
    rcases hfr : store.FetchSpaceWithID st id with ⟨fetched, st1⟩
    have hst1 : st1 = st := by
      have h := hf st id
      rw [hfr] at h
      exact h
    subst hst1
    cases fetched with
    | none => simp [DeleteSpaceM, hfr]
    | some space =>
      cases hb : space.isOwnedBy u with
      | false => simp [DeleteSpaceM, hfr, hb]
      | true =>
        cases he : space.isEmpty with
        | false => simp [DeleteSpaceM, hfr, hb, he]
        | true =>
          cases hd : space.isTheDefault with
          | true => simp [DeleteSpaceM, hfr, hb, he, hd]
          | false => simp [DeleteSpaceM, hfr, hb, he, hd, hr st1 id]
  exact ⟨h2, by rw [h2]⟩

/-- Fixture: a pure state-threading store wrapping the hard-wired
capabilities of the tests variant, over a trivial state. -/
def pureTestsStore : StoreM Unit :=
  { FetchSpaceWithID := fun st i => (Tests.fetchSpaceWithID i, st)
    RemoveSpaceWithID := fun st i => (Tests.removeSpaceWithID i, st) }

/-- Witness for C8: the wrapped hard-wired store is pure, and a repeated
call at a concrete input repeats the first result exactly. -/
theorem deleteSpaceM_idempotent_instance :
    StoreM.IsPure pureTestsStore
    ∧ (DeleteSpaceM pureTestsStore () "known-space" "known-owner").2 = ()
    ∧ DeleteSpaceM pureTestsStore
        (DeleteSpaceM pureTestsStore () "known-space" "known-owner").2
        "known-space" "known-owner"
      = DeleteSpaceM pureTestsStore () "known-space" "known-owner" :=
  ⟨⟨fun _ _ => rfl, fun _ _ => rfl⟩,
   (deleteSpaceM_idempotent pureTestsStore () "known-space" "known-owner"
      ⟨fun _ _ => rfl, fun _ _ => rfl⟩).1,
   (deleteSpaceM_idempotent pureTestsStore () "known-space" "known-owner"
      ⟨fun _ _ => rfl, fun _ _ => rfl⟩).2⟩

end TestDoubles
